import Mathlib

/-!
# healthyBot: the webhook handler of `main.go`

A shallow embedding of `main.go`: the startup code (`init`, `NewSSMClient`,
`Sessions`, `SSM.Param`, `Param.GetValue`) and the two gin routes registered by
`init` (`GET /ping`, `POST /callback`).

Conventions of the embedding.

* Go strings are Lean strings.
* Every effect is explicit: a `World` carries the lines written through the
  standard logger, the reply calls made on the messaging client and the
  parameter requests made on the parameter store, each in the order made.
* An external service is a function of the calls it has received so far and of
  the current call, so it may answer each call differently.
* A Go `(value, error)` result of an external call is an `Except`.
* The date and time header that the standard logger writes in front of each line
  is left out of a log line.
-/

namespace HealthyBot

/-! ## Errors -/

/-- A Go `error` value. Errors are compared with `==`, that is by identity, so
the two sentinels of the LINE SDK are two values although they carry the same
text. `ErrInvalidSignature` is `linebot.ErrInvalidSignature`, the sentinel of
package `linebot` that the callback compares against; `webhookErrInvalidSignature`
is `webhook.ErrInvalidSignature`, the sentinel of package `webhook` that
`webhook.ParseRequest` returns for a request whose signature does not match;
`errorString s` is any other error value, `s` being its `Error()` text. -/
inductive error where
  | ErrInvalidSignature
  | webhookErrInvalidSignature
  | errorString (s : String)
  deriving DecidableEq, Repr

/-- The text of `err.Error()`. -/
def error.Error : error → String
  | .ErrInvalidSignature => "invalid signature"
  | .webhookErrInvalidSignature => "invalid signature"
  | .errorString s => s

/-- How a piece of startup code ends: it returns a value, it panics, or it
leaves the process through `os.Exit` (as `log.Fatal` does). -/
inductive Run (α : Type) where
  | done (a : α)
  | panic (v : String)
  | exit (code : Nat)
  deriving DecidableEq, Repr

/-! ## Data of the external packages -/

/-- Modelled from the spec: the outbound message type
`messaging_api.MessageInterface` of the LINE SDK, whose declaration is not part
of the repository. "ReplyMessage: a single variant in this system, Text(body
string)". -/
inductive MessageInterface where
  | TextMessage (Text : String)
  deriving DecidableEq, Repr

/-- Modelled from the spec: `messaging_api.ReplyMessageRequest` of the LINE SDK:
"reply to a token with an ordered list of message parts". -/
structure ReplyMessageRequest where
  ReplyToken : String
  Messages : List MessageInterface
  deriving DecidableEq, Repr

/-- Modelled from the spec: `webhook.ContentProvider` of the LINE SDK, of which
the callback reads the original content URL. -/
structure ContentProvider where
  OriginalContentUrl : String
  deriving DecidableEq, Repr

/-- Modelled from the spec: `webhook.MessageContentInterface` of the LINE SDK, "a
tagged variant over Text, Sticker, Image, Video, Unknown", each variant with the
fields the callback consumes. `otherContent goType` is a value of any other
dynamic type, `goType` being the name that the verb `%T` prints for it. -/
inductive MessageContentInterface where
  | TextMessageContent (Text : String)
  | StickerMessageContent (StickerId : String) (StickerResourceType : String)
  | ImageMessageContent (Id : String) (ContentProvider : ContentProvider)
  | VideoMessageContent
  | otherContent (goType : String)
  deriving DecidableEq, Repr

/-- Modelled from the spec: `webhook.EventInterface` of the LINE SDK, "a tagged
variant over MessageEvent, other-kinds-ignored; a MessageEvent carries a reply
token and a Message payload". `otherEvent goType` is a value of any other dynamic
type, `goType` being the name that the verb `%T` prints for it. -/
inductive EventInterface where
  | MessageEvent (ReplyToken : String) (Message : MessageContentInterface)
  | otherEvent (goType : String)
  deriving DecidableEq, Repr

/-- Modelled from the spec: `webhook.CallbackRequest` of the LINE SDK, the "typed
list of events" parsed from one request. -/
structure CallbackRequest where
  Events : List EventInterface
  deriving DecidableEq, Repr

/-- The name the verb `%T` prints for a message content. -/
def MessageContentInterface.typeName : MessageContentInterface → String
  | .TextMessageContent _ => "webhook.TextMessageContent"
  | .StickerMessageContent _ _ => "webhook.StickerMessageContent"
  | .ImageMessageContent _ _ => "webhook.ImageMessageContent"
  | .VideoMessageContent => "webhook.VideoMessageContent"
  | .otherContent goType => goType

/-- The name the verb `%T` prints for an event. -/
def EventInterface.typeName : EventInterface → String
  | .MessageEvent _ _ => "webhook.MessageEvent"
  | .otherEvent goType => goType

/-- Modelled from the spec: the Messaging Client, "a single operation: reply to a
token with an ordered list of message parts, returning success or an error". The
first argument is the list of reply calls the client has received before this
one; `none` is the Go `nil` error. The response value is dropped, as the callback
drops it. -/
structure MessagingApiAPI where
  ReplyMessage : List ReplyMessageRequest → ReplyMessageRequest → Option error

/-- The input of `ssm.GetParameter`: the two fields `Param.GetValue` fills. -/
structure GetParameterInput where
  Name : String
  WithDecryption : Bool
  deriving DecidableEq, Repr

/-- The struct `ssm.Parameter`; `Value` is a `*string` and `none` is `nil`. -/
structure Parameter where
  Value : Option String
  deriving DecidableEq, Repr

/-- The struct `ssm.GetParameterOutput`; `Parameter` is a `*ssm.Parameter` and
`none` is `nil`. -/
structure GetParameterOutput where
  Parameter : Option Parameter
  deriving DecidableEq, Repr

/-- Modelled from the spec: the Secret Provider (`ssmiface.SSMAPI`), "given a
name and a decryption flag, returns a secret string or an error". The first
argument is the list of requests received before this one. -/
structure SSMAPI where
  GetParameter : List GetParameterInput → GetParameterInput → Except error GetParameterOutput

/-- An AWS session, seen through the parameter store that `ssm.New` reaches with
it. -/
structure Session where
  service : SSMAPI

/-- The client `ssm.New(sess)`. -/
def ssm.New (sess : Session) : SSMAPI := sess.service

/-- The request headers of `net/http`, keyed by canonical header name. -/
structure Header where
  entries : List (String × List String)
  deriving DecidableEq, Repr

/-- The first value stored under `key`, or the empty string: `Header.Get`. -/
def Header.Get (h : Header) (key : String) : String :=
  match h.entries.lookup key with
  | some (v :: _) => v
  | _ => ""

/-- The inbound `http.Request`: its headers and its body. -/
structure Request where
  Header : Header
  Body : String
  deriving DecidableEq, Repr

/-- `http.StatusBadRequest`. -/
def http.StatusBadRequest : Nat := 400

/-- `http.StatusInternalServerError`. -/
def http.StatusInternalServerError : Nat := 500

/-- `http.StatusOK`, the status a gin response has until the handler sets one. -/
def http.StatusOK : Nat := 200

/-- The value handed to `c.JSON`: a `gin.H` map or an error value. -/
inductive JSONValue where
  | H (fields : List (String × String))
  | err (e : error)
  deriving DecidableEq, Repr

/-- The part of `gin.Context` the handlers use: the request and the response
(status code and JSON payload, if one was written). -/
structure Context where
  Request : Request
  status : Nat
  body : Option JSONValue
  deriving DecidableEq, Repr

/-- The context gin hands to a handler for a fresh request: nothing written yet
and the status at its default, 200. -/
def Context.fresh (req : HealthyBot.Request) : Context :=
  { Request := req, status := http.StatusOK, body := none }

/-- The call `c.JSON(code, obj)`. -/
def Context.JSON (c : Context) (code : Nat) (obj : JSONValue) : Context :=
  { c with status := code, body := some obj }

/-! ## The world: logger output and calls on the external services -/

/-- The observable effects so far. -/
structure World where
  log : List String
  replies : List ReplyMessageRequest
  params : List GetParameterInput
  deriving DecidableEq, Repr

/-- The world before anything happened. -/
def World.empty : World := { log := [], replies := [], params := [] }

/-- The line the standard logger writes for message `s`: a newline is added when
`s` is empty or does not end in one. -/
def logOutput (s : String) : String :=
  if s.length = 0 ∨ s.back ≠ '\n' then s ++ "\n" else s

/-- The call `log.Println(v)` for one operand whose default rendering is `v`. -/
def log.Println (w : World) (v : String) : World :=
  { w with log := w.log ++ [logOutput (v ++ "\n")] }

/-- The call `log.Print(v)` for one operand whose default rendering is `v`. -/
def log.Print (w : World) (v : String) : World :=
  { w with log := w.log ++ [logOutput v] }

/-- Expansion of a format string. Each of the verbs `%s`, `%T` and `%+v` (the
ones `main.go` uses) is replaced by the next operand; an operand is given by its
rendering under the verb that consumes it. A verb with no operand left yields the
`MISSING` marker of the `fmt` package. Every other character is copied. Operands
left over after the last verb do not occur in `main.go` and are dropped. -/
def fmt.expand : List Char → List String → List Char
  | [], _ => []
  | '%' :: 's' :: rest, a :: args => a.data ++ fmt.expand rest args
  | '%' :: 'T' :: rest, a :: args => a.data ++ fmt.expand rest args
  | '%' :: '+' :: 'v' :: rest, a :: args => a.data ++ fmt.expand rest args
  | '%' :: 's' :: rest, [] => "%!s(MISSING)".data ++ fmt.expand rest []
  | '%' :: 'T' :: rest, [] => "%!T(MISSING)".data ++ fmt.expand rest []
  | '%' :: '+' :: 'v' :: rest, [] => "%!v(MISSING)".data ++ fmt.expand rest []
  | c :: rest, args => c :: fmt.expand rest args

/-- The call `fmt.Sprintf(format, a...)`. -/
def fmt.Sprintf (format : String) (a : List String) : String :=
  ⟨fmt.expand format.data a⟩

/-- The call `log.Printf(format, a...)`. -/
def log.Printf (w : World) (format : String) (a : List String) : World :=
  { w with log := w.log ++ [logOutput (fmt.Sprintf format a)] }

/-- The call `bot.ReplyMessage(req)`: the request is recorded and the client
answers with an error or with `none`. -/
def MessagingApiAPI.call (bot : MessagingApiAPI) (w : World) (req : ReplyMessageRequest) :
    Option error × World :=
  (bot.ReplyMessage w.replies req, { w with replies := w.replies ++ [req] })

/-- The call `client.GetParameter(input)`: the request is recorded and the
parameter store answers. -/
def SSMAPI.call (client : SSMAPI) (w : World) (input : GetParameterInput) :
    Except error GetParameterOutput × World :=
  (client.GetParameter w.params input, { w with params := w.params ++ [input] })

/-! ## Startup: `Sessions`, `NewSSMClient`, `SSM.Param`, `Param.GetValue`, `init` -/

/-- What the program takes from outside: the result of `session.NewSession()`,
the constructor `messaging_api.NewMessagingApiAPI`, the parser
`webhook.ParseRequest`, and the rendering of an event under the verb `%+v`. The
parser of the SDK reports a signature that does not match with
`error.webhookErrInvalidSignature`. -/
structure Externals where
  NewSession : Except error Session
  NewMessagingApiAPI : String → Except error MessagingApiAPI
  ParseRequest : String → Request → Except error CallbackRequest
  fmtPlusV : EventInterface → String

/-- The helper `session.Must(sess, err)`: it panics on an error and returns the
session otherwise. -/
def session.Must (r : Except error Session) : Run Session :=
  match r with
  | .error err => .panic err.Error
  | .ok sess => .done sess

/-- The function `Sessions`: the session and the error of `session.NewSession()`,
after `session.Must` has let the session through. -/
def Sessions (NewSession : Except error Session) : Run (Session × Option error) :=
  match session.Must NewSession with
  | .panic v => .panic v
  | .exit code => .exit code
  | .done svc =>
    match NewSession with
    | .error err => .done (svc, some err)
    | .ok _ => .done (svc, none)

/-- The struct `SSM`: a wrapper of the parameter store client. -/
structure SSM where
  client : SSMAPI

/-- The function `NewSSMClient`; the result `none` is the Go `nil` pointer. -/
def NewSSMClient (NewSession : Except error Session) (w : World) : Run (Option SSM) × World :=
  match Sessions NewSession with
  | .panic v => (.panic v, w)
  | .exit code => (.exit code, w)
  | .done (_, some err) => (.done none, log.Println w err.Error)
  | .done (sess, none) => (.done (some { client := ssm.New sess }), w)

/-- The struct `Param`; `ssmsvc` is a pointer and `none` is `nil`. -/
structure Param where
  Name : String
  WithDecryption : Bool
  ssmsvc : Option SSM

/-- The method `(s *SSM) Param(name, decryption)`. -/
def SSM.Param (s : Option SSM) (name : String) (decryption : Bool) : HealthyBot.Param :=
  { Name := name, WithDecryption := decryption, ssmsvc := s }

/-- The panic value of a read through a `nil` pointer. -/
def nilDereference : String :=
  "runtime error: invalid memory address or nil pointer dereference"

/-- The method `(p *Param) GetValue()`: one `GetParameter` call; on an error the
empty string and the error, otherwise the value `*parameter.Parameter.Value` and
no error. Reading `client` through a `nil` `ssmsvc` panics, and so does the
dereference when `Parameter` or `Value` is `nil`. -/
def Param.GetValue (p : Param) (w : World) : Run (String × Option error) × World :=
  match p.ssmsvc with
  | none => (.panic nilDereference, w)
  | some s =>
    match s.client.call w { Name := p.Name, WithDecryption := p.WithDecryption } with
    | (.error err, w) => (.done ("", some err), w)
    | (.ok parameter, w) =>
      match parameter.Parameter with
      | none => (.panic nilDereference, w)
      | some param =>
        match param.Value with
        | none => (.panic nilDereference, w)
        | some value => (.done (value, none), w)

/-- What `init` leaves for the route closures: the two secrets and the messaging
client. -/
structure Server where
  lineSecret : String
  lineAccessToken : String
  bot : MessagingApiAPI

/-- The part of `init` before the routes are registered. A failed `GetValue` is
logged and startup goes on with the empty string it returned; a failed client
construction ends the process through `log.Fatal`. -/
def init (x : Externals) (w : World) : Run Server × World :=
  match NewSSMClient x.NewSession w with
  | (.panic v, w) => (.panic v, w)
  | (.exit code, w) => (.exit code, w)
  | (.done ssmsvc, w) =>
    match (SSM.Param ssmsvc "HEALTHYBOT_CHANNEL_SECRET" true).GetValue w with
    | (.panic v, w) => (.panic v, w)
    | (.exit code, w) => (.exit code, w)
    | (.done (lineSecret, err), w) =>
      let w := match err with
        | some err => log.Println w err.Error
        | none => w
      match (SSM.Param ssmsvc "HEALTHYBOT_CHANNEL_ACCESS_TOKEN" true).GetValue w with
      | (.panic v, w) => (.panic v, w)
      | (.exit code, w) => (.exit code, w)
      | (.done (lineAccessToken, err), w) =>
        let w := match err with
          | some err => log.Println w err.Error
          | none => w
        match x.NewMessagingApiAPI lineAccessToken with
        | .error err => (.exit 1, log.Print w err.Error)
        | .ok bot =>
          let w := log.Printf w "Gin cold start" []
          (.done { lineSecret := lineSecret, lineAccessToken := lineAccessToken, bot := bot }, w)

/-! ## The routes -/

/-- The handler of `GET /ping`. -/
def ping (c : Context) : Context :=
  c.JSON 200 (.H [("message", "pong")])

/-- The body of the loop over `cb.Events` in the handler of `POST /callback`. -/
def handleEvent (x : Externals) (bot : MessagingApiAPI) (w : World) (event : EventInterface) :
    World :=
  let w := log.Printf w "/callback called%+v...\n" [x.fmtPlusV event]
  match event with
  | .MessageEvent ReplyToken Message =>
    match Message with
    | .TextMessageContent Text =>
      match bot.call w { ReplyToken := ReplyToken, Messages := [.TextMessage Text] } with
      | (some err, w) => log.Print w err.Error
      | (none, w) => log.Println w "Sent text reply."
    | .StickerMessageContent StickerId StickerResourceType =>
      let replyMessage := fmt.Sprintf
        "sticker id is %s, stickerResourceType is %s" [StickerId, StickerResourceType]
      match bot.call w { ReplyToken := ReplyToken, Messages := [.TextMessage replyMessage] } with
      | (some err, w) => log.Print w err.Error
      | (none, w) => log.Println w "Sent sticker reply."
    | .ImageMessageContent Id ContentProvider =>
      let replyMessage := fmt.Sprintf
        "image id is %s, imageOriginalContentUrl is %s" [Id, ContentProvider.OriginalContentUrl]
      match bot.call w { ReplyToken := ReplyToken, Messages := [.TextMessage replyMessage] } with
      | (some err, w) => log.Print w err.Error
      | (none, w) => log.Println w "Sent image reply."
    | .VideoMessageContent => w
    | .otherContent goType =>
      log.Printf w "Unsupported message content: %T\n"
        [(MessageContentInterface.otherContent goType).typeName]
  | .otherEvent goType =>
    log.Printf w "Unsupported message: %T\n" [(EventInterface.otherEvent goType).typeName]

/-- The loop `for _, event := range cb.Events`. -/
def handleEvents (x : Externals) (bot : MessagingApiAPI) (w : World)
    (events : List EventInterface) : World :=
  events.foldl (handleEvent x bot) w

/-- The handler of `POST /callback`. The request is parsed, the two secrets and
the signature header are logged, then either the parse error is answered (400
for the invalid-signature sentinel, 500 otherwise) or the events are handled. -/
def callback (x : Externals) (s : Server) (c : Context) (w : World) : Context × World :=
  let r := x.ParseRequest s.lineSecret c.Request
  let w := log.Println w ("secret : " ++ s.lineSecret)
  let w := log.Println w ("access token : " ++ s.lineAccessToken)
  let sign := c.Request.Header.Get "X-Line-Signature"
  let w := log.Println w ("sign : " ++ sign)
  match r with
  | .error err =>
    if err = error.ErrInvalidSignature then
      let w := log.Println w err.Error
      (c.JSON http.StatusBadRequest (.err err), w)
    else
      let w := log.Println w err.Error
      (c.JSON http.StatusInternalServerError (.err err), w)
  | .ok cb => (c, handleEvents x s.bot w cb.Events)

/-- One `POST /callback` request served from a fresh gin context. -/
def serveCallback (x : Externals) (s : Server) (req : Request) (w : World) : Context × World :=
  callback x s (Context.fresh req) w

/-! ## Auxiliary definitions for the statements -/

/-- The line that opens the handling of an event. -/
def calledLine (x : Externals) (event : EventInterface) : String :=
  "/callback called" ++ x.fmtPlusV event ++ "..." ++ "\n"

/-- The reply call that the handling of one event makes, if it makes one; read
off the call sites of `handleEvent`. -/
def replyOf : EventInterface → List ReplyMessageRequest
  | .MessageEvent T (.TextMessageContent B) =>
    [{ ReplyToken := T, Messages := [.TextMessage B] }]
  | .MessageEvent T (.StickerMessageContent I S) =>
    [{ ReplyToken := T, Messages := [.TextMessage
        (fmt.Sprintf "sticker id is %s, stickerResourceType is %s" [I, S])] }]
  | .MessageEvent T (.ImageMessageContent I P) =>
    [{ ReplyToken := T, Messages := [.TextMessage
        (fmt.Sprintf "image id is %s, imageOriginalContentUrl is %s" [I, P.OriginalContentUrl])] }]
  | .MessageEvent _ .VideoMessageContent => []
  | .MessageEvent _ (.otherContent _) => []
  | .otherEvent _ => []

/-- The three lines the callback handler writes before it looks at the outcome of
the parse: the signing secret, the access token, the signature header. -/
def openingLines (s : Server) (req : Request) : List String :=
  ["secret : " ++ s.lineSecret ++ "\n",
   "access token : " ++ s.lineAccessToken ++ "\n",
   "sign : " ++ req.Header.Get "X-Line-Signature" ++ "\n"]

/-- Whether an event is a `webhook.MessageEvent`. -/
def EventInterface.isMessageEvent : EventInterface → Bool
  | .MessageEvent _ _ => true
  | .otherEvent _ => false

/-- Whether an answer of the parameter store is an error or carries a value:
neither `Parameter` nor `Value` is `nil`. -/
def carriesValue : Except error GetParameterOutput → Bool
  | .error _ => true
  | .ok { Parameter := some { Value := some _ } } => true
  | .ok _ => false

/-- The secret that startup keeps for an answer of the parameter store: the value
of the parameter, or the empty string when the store answered with an error. -/
def keptSecret : Except error GetParameterOutput → String
  | .ok { Parameter := some { Value := some value } } => value
  | _ => ""

/-- The log line startup writes for an answer of the parameter store: the error
text for a failed request, nothing otherwise. -/
def failureLines : Except error GetParameterOutput → List String
  | .ok _ => []
  | .error err => [err.Error ++ "\n"]

/-- A messaging client whose every reply call succeeds. -/
def succeedingBot : MessagingApiAPI := { ReplyMessage := fun _ _ => none }

/-- A messaging client whose every reply call fails. -/
def failingBot : MessagingApiAPI :=
  { ReplyMessage := fun _ _ => some (.errorString "reply failed") }

/-- A parameter store that knows the signing secret and fails on every other
name, so the request for the access token fails. -/
def sampleStore : SSMAPI :=
  { GetParameter := fun _ input =>
      if input.Name = "HEALTHYBOT_CHANNEL_SECRET" then
        .ok { Parameter := some { Value := some "s3cr3t" } }
      else .error (.errorString "ParameterNotFound") }

/-- A parameter store that knows the access token and fails on every other name,
so the request for the signing secret fails. -/
def sampleStoreNoSecret : SSMAPI :=
  { GetParameter := fun _ input =>
      if input.Name = "HEALTHYBOT_CHANNEL_ACCESS_TOKEN" then
        .ok { Parameter := some { Value := some "t0k3n" } }
      else .error (.errorString "ParameterNotFound") }

/-- Modelled from the spec: the constructor `messaging_api.NewMessagingApiAPI` of
the LINE SDK, which is not part of the repository. Client construction fails "if
the access token cannot be used to construct a client"; the empty token is such a
token, and every other token gives a client. -/
def sampleNewMessagingApiAPI (channelToken : String) : Except error MessagingApiAPI :=
  if channelToken = "" then .error (.errorString "missing channel access token")
  else .ok succeedingBot

/-- Sample surroundings: the parse result is fixed by `r`. -/
def sampleExternals (r : Except error CallbackRequest) : Externals :=
  { NewSession := .ok { service := sampleStore }
    NewMessagingApiAPI := sampleNewMessagingApiAPI
    ParseRequest := fun _ _ => r
    fmtPlusV := fun e => e.typeName }

/-- Sample surroundings of a startup: the outcome of the session creation is
`session`. -/
def sampleStartup (session : Except error Session) : Externals :=
  { NewSession := session
    NewMessagingApiAPI := sampleNewMessagingApiAPI
    ParseRequest := fun _ _ => .error .webhookErrInvalidSignature
    fmtPlusV := fun e => e.typeName }

/-- A sample request with a signature header. -/
def sampleRequest : Request :=
  { Header := { entries := [("X-Line-Signature", ["c2lnbg=="])] }, Body := "" }

/-- A sample server state whose messaging client always fails. -/
def sampleServer : Server :=
  { lineSecret := "s3cr3t", lineAccessToken := "t0k3n", bot := failingBot }

/-- A sample batch: a text message `hi` and a sticker message with id `1` and
resource type `custom`. -/
def sampleBatch : CallbackRequest :=
  { Events := [.MessageEvent "T1" (.TextMessageContent "hi"),
               .MessageEvent "T2" (.StickerMessageContent "1" "custom")] }

/-- A sample batch of two events the handler has no reply for: a follow event
and an audio message. -/
def sampleUnsupportedBatch : CallbackRequest :=
  { Events := [.otherEvent "webhook.FollowEvent",
               .MessageEvent "T3" (.otherContent "webhook.AudioMessageContent")] }

/-! ## Lemmas on the logger and on formatting -/

theorem logOutput_newline (s : String) : logOutput (s ++ "\n") = s ++ "\n" := by
  have h1 : ("\n" : String).length = 1 := by decide
  have hlen : (s ++ "\n").length ≠ 0 := by
    rw [String.length_append, h1]; omega
  have hback : (s ++ "\n").back = '\n' := by
    rw [String.back_eq]; simp
  unfold logOutput
  rw [if_neg]
  intro h
  rcases h with h | h
  · exact hlen h
  · exact h hback

theorem Sprintf_called (a : String) :
    fmt.Sprintf "/callback called%+v...\n" [a] = "/callback called" ++ a ++ "..." ++ "\n" := by
  apply String.ext
  simp [fmt.Sprintf, fmt.expand]

theorem Sprintf_unsupported_content (a : String) :
    fmt.Sprintf "Unsupported message content: %T\n" [a]
      = "Unsupported message content: " ++ a ++ "\n" := by
  apply String.ext
  simp [fmt.Sprintf, fmt.expand]

theorem Sprintf_unsupported_event (a : String) :
    fmt.Sprintf "Unsupported message: %T\n" [a] = "Unsupported message: " ++ a ++ "\n" := by
  apply String.ext
  simp [fmt.Sprintf, fmt.expand]

theorem Sprintf_sticker (a b : String) :
    fmt.Sprintf "sticker id is %s, stickerResourceType is %s" [a, b]
      = "sticker id is " ++ a ++ ", stickerResourceType is " ++ b := by
  apply String.ext
  simp [fmt.Sprintf, fmt.expand]

theorem Sprintf_image (a b : String) :
    fmt.Sprintf "image id is %s, imageOriginalContentUrl is %s" [a, b]
      = "image id is " ++ a ++ ", imageOriginalContentUrl is " ++ b := by
  apply String.ext
  simp [fmt.Sprintf, fmt.expand]

theorem Printf_called (x : Externals) (w : World) (event : EventInterface) :
    log.Printf w "/callback called%+v...\n" [x.fmtPlusV event]
      = { w with log := w.log ++ [calledLine x event] } := by
  simp [log.Printf, Sprintf_called, logOutput_newline, calledLine]

/-! ## Lemmas on the event loop -/

theorem Println_replies (w : World) (v : String) :
    (log.Println w v).replies = w.replies := rfl

theorem Print_replies (w : World) (v : String) :
    (log.Print w v).replies = w.replies := rfl

theorem Printf_replies (w : World) (f : String) (a : List String) :
    (log.Printf w f a).replies = w.replies := rfl

/-- A reply call followed by the logging of its outcome adds exactly that call,
whatever the outcome. -/
theorem call_then_log_replies (bot : MessagingApiAPI) (w : World) (req : ReplyMessageRequest)
    (s : String) :
    (match bot.call w req with
      | (some err, w) => log.Print w err.Error
      | (none, w) => log.Println w s).replies = w.replies ++ [req] := by
  unfold MessagingApiAPI.call
  cases bot.ReplyMessage w.replies req <;> simp [Print_replies, Println_replies]

/-- The reply calls of one event are appended to the calls made before; they do
not depend on the world the event is handled in, nor on the answers of the
messaging client. -/
theorem handleEvent_replies (x : Externals) (bot : MessagingApiAPI) (w : World)
    (event : EventInterface) :
    (handleEvent x bot w event).replies = w.replies ++ replyOf event := by
  rcases event with ⟨T, m⟩ | k
  · rcases m with B | ⟨I, S⟩ | ⟨I, P⟩ | _ | k
    · simp only [handleEvent, call_then_log_replies, replyOf, Printf_replies]
    · simp only [handleEvent, call_then_log_replies, replyOf, Printf_replies]
    · simp only [handleEvent, call_then_log_replies, replyOf, Printf_replies]
    · simp [handleEvent, replyOf, Printf_replies]
    · simp [handleEvent, replyOf, Printf_replies]
  · simp [handleEvent, replyOf, Printf_replies]

theorem handleEvents_append (x : Externals) (bot : MessagingApiAPI) (w : World)
    (pre post : List EventInterface) :
    handleEvents x bot w (pre ++ post) = handleEvents x bot (handleEvents x bot w pre) post := by
  simp [handleEvents, List.foldl_append]

theorem handleEvents_cons (x : Externals) (bot : MessagingApiAPI) (w : World)
    (event : EventInterface) (post : List EventInterface) :
    handleEvents x bot w (event :: post) = handleEvents x bot (handleEvent x bot w event) post := by
  simp [handleEvents]

theorem handleEvents_replies_of (x : Externals) (bot : MessagingApiAPI) (w : World)
    (events : List EventInterface) :
    (handleEvents x bot w events).replies = w.replies ++ events.flatMap replyOf := by
  induction events generalizing w with
  | nil => simp [handleEvents]
  | cons e rest ih =>
    rw [handleEvents_cons, ih, handleEvent_replies]
    simp [List.flatMap_cons]

/-- Inside a batch, the reply calls are those of the events before, those of the
event itself, and those of the events after, in this order. -/
theorem handleEvents_replies_split (x : Externals) (bot : MessagingApiAPI) (w : World)
    (pre post : List EventInterface) (event : EventInterface) :
    (handleEvents x bot w (pre ++ event :: post)).replies
      = (handleEvents x bot w pre).replies ++ replyOf event
          ++ (handleEvents x bot World.empty post).replies := by
  simp [handleEvents_replies_of, World.empty, List.flatMap_append, List.flatMap_cons]

theorem handleEvents_split (x : Externals) (bot : MessagingApiAPI) (w : World)
    (pre post : List EventInterface) (event : EventInterface) :
    handleEvents x bot w (pre ++ event :: post)
      = handleEvents x bot (handleEvent x bot (handleEvents x bot w pre) event) post := by
  rw [handleEvents_append, handleEvents_cons]

theorem handleEvent_video (x : Externals) (bot : MessagingApiAPI) (w : World) (T : String) :
    handleEvent x bot w (.MessageEvent T .VideoMessageContent)
      = { w with log := w.log ++ [calledLine x (.MessageEvent T .VideoMessageContent)] } := by
  simp [handleEvent, Printf_called]

theorem handleEvent_otherContent (x : Externals) (bot : MessagingApiAPI) (w : World)
    (T k : String) :
    handleEvent x bot w (.MessageEvent T (.otherContent k))
      = { w with log := w.log ++ [calledLine x (.MessageEvent T (.otherContent k)),
            "Unsupported message content: " ++ k ++ "\n"] } := by
  simp only [handleEvent, Printf_called]
  simp [log.Printf, Sprintf_unsupported_content, logOutput_newline,
    MessageContentInterface.typeName]

theorem handleEvent_otherEvent (x : Externals) (bot : MessagingApiAPI) (w : World)
    (k : String) :
    handleEvent x bot w (.otherEvent k)
      = { w with log := w.log ++ [calledLine x (.otherEvent k),
            "Unsupported message: " ++ k ++ "\n"] } := by
  simp only [handleEvent, Printf_called]
  simp [log.Printf, Sprintf_unsupported_event, logOutput_newline, EventInterface.typeName]

theorem calledLine_ne_unsupported (x : Externals) (event : EventInterface) (rest : String) :
    calledLine x event ≠ "Unsupported" ++ rest := by
  intro h
  have h2 := congrArg (fun s : String => s.data.head?) h
  simp [calledLine] at h2

/-! ## The reply policy -/

/-- C1. A message event with reply token `T` whose message is the text `B` makes
exactly one reply call, addressed to `T`, carrying the single text message `B`
unchanged: that call is appended to the calls made before the event, in whatever
world the loop reaches the event and whatever the client answers; and inside any
batch it stands between the calls of the events before and those of the events
after. -/
theorem text_message_reply (x : Externals) (bot : MessagingApiAPI) (w : World) (T B : String)
    (pre post : List EventInterface) :
    (handleEvent x bot w (.MessageEvent T (.TextMessageContent B))).replies
        = w.replies ++ [{ ReplyToken := T, Messages := [.TextMessage B] }]
    ∧ (handleEvents x bot w (pre ++ .MessageEvent T (.TextMessageContent B) :: post)).replies
        = (handleEvents x bot w pre).replies
            ++ [{ ReplyToken := T, Messages := [.TextMessage B] }]
            ++ (handleEvents x bot World.empty post).replies := by
  constructor
  · rw [handleEvent_replies]; rfl
  · rw [handleEvents_replies_split]; rfl

/-- C2. A message event with reply token `T` whose message is a sticker with
sticker id `I` and resource type `S` makes exactly one reply call, addressed to
`T`, carrying the single text message
`"sticker id is " ++ I ++ ", stickerResourceType is " ++ S`. -/
theorem sticker_message_reply (x : Externals) (bot : MessagingApiAPI) (w : World)
    (T I S : String) (pre post : List EventInterface) :
    (handleEvent x bot w (.MessageEvent T (.StickerMessageContent I S))).replies
        = w.replies ++ [{ ReplyToken := T, Messages := [.TextMessage
            ("sticker id is " ++ I ++ ", stickerResourceType is " ++ S)] }]
    ∧ (handleEvents x bot w (pre ++ .MessageEvent T (.StickerMessageContent I S) :: post)).replies
        = (handleEvents x bot w pre).replies
            ++ [{ ReplyToken := T, Messages := [.TextMessage
                ("sticker id is " ++ I ++ ", stickerResourceType is " ++ S)] }]
            ++ (handleEvents x bot World.empty post).replies := by
  constructor
  · rw [handleEvent_replies, replyOf, Sprintf_sticker]
  · rw [handleEvents_replies_split, replyOf, Sprintf_sticker]

/-- C3. A message event with reply token `T` whose message is an image with
content id `I` and original content URL `U` makes exactly one reply call,
addressed to `T`, carrying the single text message
`"image id is " ++ I ++ ", imageOriginalContentUrl is " ++ U`. -/
theorem image_message_reply (x : Externals) (bot : MessagingApiAPI) (w : World)
    (T I U : String) (pre post : List EventInterface) :
    (handleEvent x bot w
        (.MessageEvent T (.ImageMessageContent I { OriginalContentUrl := U }))).replies
        = w.replies ++ [{ ReplyToken := T, Messages := [.TextMessage
            ("image id is " ++ I ++ ", imageOriginalContentUrl is " ++ U)] }]
    ∧ (handleEvents x bot w
        (pre ++ .MessageEvent T (.ImageMessageContent I { OriginalContentUrl := U }) :: post)).replies
        = (handleEvents x bot w pre).replies
            ++ [{ ReplyToken := T, Messages := [.TextMessage
                ("image id is " ++ I ++ ", imageOriginalContentUrl is " ++ U)] }]
            ++ (handleEvents x bot World.empty post).replies := by
  constructor
  · rw [handleEvent_replies, replyOf, Sprintf_image]
  · rw [handleEvents_replies_split, replyOf, Sprintf_image]

/-- C4. A message event whose message is a video makes no reply call and writes
no line about an unsupported kind: handling it only adds the opening line
`/callback called...` to the log, that line is not an `Unsupported...` line, and
inside a batch the loop goes on with the events after it. -/
theorem video_message_silent (x : Externals) (bot : MessagingApiAPI) (w : World) (T : String)
    (pre post : List EventInterface) :
    handleEvent x bot w (.MessageEvent T .VideoMessageContent)
        = { w with log := w.log ++ [calledLine x (.MessageEvent T .VideoMessageContent)] }
    ∧ (handleEvent x bot w (.MessageEvent T .VideoMessageContent)).replies = w.replies
    ∧ (∀ rest : String,
        calledLine x (.MessageEvent T .VideoMessageContent) ≠ "Unsupported" ++ rest)
    ∧ handleEvents x bot w (pre ++ .MessageEvent T .VideoMessageContent :: post)
        = handleEvents x bot
            { handleEvents x bot w pre with
              log := (handleEvents x bot w pre).log
                ++ [calledLine x (.MessageEvent T .VideoMessageContent)] } post := by
  refine ⟨handleEvent_video x bot w T, ?_, calledLine_ne_unsupported x _, ?_⟩
  · rw [handleEvent_video]
  · rw [handleEvents_split, handleEvent_video]

/-! ## The callback handler -/

theorem serveCallback_ok (x : Externals) (s : Server) (req : Request) (w : World)
    (cb : CallbackRequest) (h : x.ParseRequest s.lineSecret req = .ok cb) :
    serveCallback x s req w
      = (Context.fresh req,
          handleEvents x s.bot { w with log := w.log ++ openingLines s req } cb.Events) := by
  have h2 : x.ParseRequest s.lineSecret (Context.fresh req).Request = .ok cb := h
  simp [serveCallback, callback, h2, log.Println, logOutput_newline, openingLines]
  rfl

theorem serveCallback_error (x : Externals) (s : Server) (req : Request) (w : World)
    (err : error) (h : x.ParseRequest s.lineSecret req = .error err) :
    serveCallback x s req w
      = ((Context.fresh req).JSON
            (if err = error.ErrInvalidSignature then http.StatusBadRequest
              else http.StatusInternalServerError) (.err err),
          { w with log := w.log ++ openingLines s req ++ [err.Error ++ "\n"] }) := by
  have h2 : x.ParseRequest s.lineSecret (Context.fresh req).Request = .error err := h
  by_cases he : err = error.ErrInvalidSignature
  · simp [serveCallback, callback, h2, he, log.Println, logOutput_newline, openingLines]
    rfl
  · simp [serveCallback, callback, h2, he, log.Println, logOutput_newline, openingLines]
    rfl

/-- C5. An event that is not a message event, and a message event whose message
is of none of the four handled kinds, makes no reply call and writes a line that
names its kind (the `%T` name of the event, respectively of the message); the
loop goes on with the events after it, and a batch that parsed is answered with
the untouched response (status 200, no error payload). -/
theorem unsupported_kinds_logged (x : Externals) (bot : MessagingApiAPI) (w : World)
    (T k : String) (pre post : List EventInterface) (s : Server) (req : Request)
    (cb : CallbackRequest) :
    handleEvent x bot w (.otherEvent k)
        = { w with log := w.log
              ++ [calledLine x (.otherEvent k), "Unsupported message: " ++ k ++ "\n"] }
    ∧ handleEvent x bot w (.MessageEvent T (.otherContent k))
        = { w with log := w.log
              ++ [calledLine x (.MessageEvent T (.otherContent k)),
                  "Unsupported message content: " ++ k ++ "\n"] }
    ∧ handleEvents x bot w (pre ++ .otherEvent k :: post)
        = handleEvents x bot
            { handleEvents x bot w pre with
              log := (handleEvents x bot w pre).log
                ++ [calledLine x (.otherEvent k), "Unsupported message: " ++ k ++ "\n"] } post
    ∧ handleEvents x bot w (pre ++ .MessageEvent T (.otherContent k) :: post)
        = handleEvents x bot
            { handleEvents x bot w pre with
              log := (handleEvents x bot w pre).log
                ++ [calledLine x (.MessageEvent T (.otherContent k)),
                    "Unsupported message content: " ++ k ++ "\n"] } post
    ∧ (x.ParseRequest s.lineSecret req = .ok cb →
        (serveCallback x s req w).1 = Context.fresh req
        ∧ (serveCallback x s req w).1.status = 200) := by
  refine ⟨handleEvent_otherEvent x bot w k, handleEvent_otherContent x bot w T k, ?_, ?_, ?_⟩
  · rw [handleEvents_split, handleEvent_otherEvent]
  · rw [handleEvents_split, handleEvent_otherContent]
  · intro h
    rw [serveCallback_ok x s req w cb h]
    exact ⟨rfl, rfl⟩

/-- C6. A request whose signature does not match is reported by
`webhook.ParseRequest` with `webhook.ErrInvalidSignature`; the handler compares the
error with `linebot.ErrInvalidSignature`, another value, so it takes the branch of
the other parse errors: the answer is 500 with the error as payload, not 400. No
reply call is made, and the log holds the three opening lines and the error
text. -/
theorem invalid_signature_answered_500 (x : Externals) (s : Server) (req : Request)
    (w : World) :
    (serveCallback
        { x with ParseRequest := fun _ _ => .error .webhookErrInvalidSignature } s req w).1.status
        = 500
    ∧ (serveCallback
        { x with ParseRequest := fun _ _ => .error .webhookErrInvalidSignature } s req w).1.body
        = some (.err .webhookErrInvalidSignature)
    ∧ (serveCallback
        { x with ParseRequest := fun _ _ => .error .webhookErrInvalidSignature } s req w).2.replies
        = w.replies
    ∧ (serveCallback
        { x with ParseRequest := fun _ _ => .error .webhookErrInvalidSignature } s req w).2.log
        = w.log ++ openingLines s req ++ ["invalid signature\n"]
    ∧ (serveCallback
        (sampleExternals (.error .webhookErrInvalidSignature)) sampleServer sampleRequest
        World.empty).1.status = 500 := by
  rw [serveCallback_error { x with ParseRequest := fun _ _ => .error .webhookErrInvalidSignature }
    s req w .webhookErrInvalidSignature rfl]
  refine ⟨?_, ?_, rfl, rfl, by decide⟩
  · simp [Context.JSON, http.StatusInternalServerError]
  · simp [Context.JSON]

theorem replyOf_length_le (event : EventInterface) :
    (replyOf event).length ≤ if event.isMessageEvent = true then 1 else 0 := by
  rcases event with ⟨T, m⟩ | k
  · rcases m with B | ⟨I, S⟩ | ⟨I, P⟩ | _ | k <;> simp [replyOf, EventInterface.isMessageEvent]
  · simp [replyOf, EventInterface.isMessageEvent]

theorem flatMap_replyOf_length_le (events : List EventInterface) :
    (events.flatMap replyOf).length ≤ events.countP EventInterface.isMessageEvent := by
  induction events with
  | nil => simp
  | cons e rest ih =>
    rw [List.flatMap_cons, List.length_append, List.countP_cons]
    have := replyOf_length_le e
    omega

theorem handleEvent_replies_length_le (x : Externals) (bot : MessagingApiAPI) (w : World)
    (event : EventInterface) :
    (handleEvent x bot w event).replies.length ≤ w.replies.length + 1 := by
  rw [handleEvent_replies, List.length_append]
  have := replyOf_length_le event
  split at this <;> omega

/-- C7. Failures of the reply call are swallowed. For a batch that parsed, and
whatever the messaging client answers to each call, the handler makes the same
sequence of reply calls as with a client whose every call succeeds, and it
answers 200; one event never leads to more than one call (no retry). The sequence
is the one call of each text, sticker and image event, in event order, after the
calls made before. In particular, when the call for a text event fails, the call
of the event after it is still made, right after the failed one. -/
theorem reply_failures_swallowed (x : Externals) (s : Server) (req : Request) (w : World)
    (cb : CallbackRequest) (h : x.ParseRequest s.lineSecret req = .ok cb) :
    (serveCallback x s req w).2.replies
        = (serveCallback x { s with bot := succeedingBot } req w).2.replies
    ∧ (serveCallback x s req w).1.status = 200
    ∧ (∀ (w0 : World) (event : EventInterface),
        (handleEvent x s.bot w0 event).replies.length ≤ w0.replies.length + 1)
    ∧ (serveCallback x s req w).2.replies = w.replies ++ cb.Events.flatMap replyOf
    ∧ (∀ (w0 : World) (T B : String) (next : EventInterface) (err : error),
        s.bot.ReplyMessage w0.replies { ReplyToken := T, Messages := [.TextMessage B] }
            = some err →
        (handleEvents x s.bot w0 [.MessageEvent T (.TextMessageContent B), next]).replies
          = w0.replies ++ [{ ReplyToken := T, Messages := [.TextMessage B] }] ++ replyOf next)
    ∧ (∀ (w0 : World) (T B T2 B2 : String) (err : error),
        s.bot.ReplyMessage w0.replies { ReplyToken := T, Messages := [.TextMessage B] }
            = some err →
        (handleEvents x s.bot w0
            [.MessageEvent T (.TextMessageContent B),
             .MessageEvent T2 (.TextMessageContent B2)]).replies
          = w0.replies ++ [{ ReplyToken := T, Messages := [.TextMessage B] },
                           { ReplyToken := T2, Messages := [.TextMessage B2] }]) := by
  refine ⟨?_, ?_, fun w0 event => handleEvent_replies_length_le x s.bot w0 event, ?_, ?_, ?_⟩
  · rw [serveCallback_ok x s req w cb h,
      serveCallback_ok x { s with bot := succeedingBot } req w cb h]
    simp only [handleEvents_replies_of]
  · rw [serveCallback_ok x s req w cb h]
    rfl
  · rw [serveCallback_ok x s req w cb h]
    simp only [handleEvents_replies_of]
  · intro w0 T B next err _
    rw [handleEvents_replies_of]
    simp [List.flatMap_cons, replyOf]
  · intro w0 T B T2 B2 err _
    rw [handleEvents_replies_of]
    simp [List.flatMap_cons, replyOf]

/-- C8. For a batch that parsed, the reply calls of the handler are the calls
made before, followed by the calls of each event in the order of the events;
each event contributes at most one call, so the number of new calls is at most
the number of message events. In particular the batch of a text message `hi` and
a sticker message with id `1` and resource type `custom` yields exactly the two
calls with bodies `hi` and `sticker id is 1, stickerResourceType is custom`, in
this order, and the answer 200. -/
theorem replies_in_event_order (x : Externals) (s : Server) (req : Request) (w : World)
    (cb : CallbackRequest) (bot0 : MessagingApiAPI) (T1 T2 : String)
    (h : x.ParseRequest s.lineSecret req = .ok cb) :
    (serveCallback x s req w).2.replies
        = w.replies ++ cb.Events.flatMap (fun e => (handleEvent x bot0 World.empty e).replies)
    ∧ (∀ e : EventInterface, (handleEvent x bot0 World.empty e).replies.length ≤ 1)
    ∧ (serveCallback x s req w).2.replies.length
        ≤ w.replies.length + cb.Events.countP EventInterface.isMessageEvent
    ∧ (cb.Events = [.MessageEvent T1 (.TextMessageContent "hi"),
                    .MessageEvent T2 (.StickerMessageContent "1" "custom")] →
        (serveCallback x s req w).2.replies
          = w.replies ++ [{ ReplyToken := T1, Messages := [.TextMessage "hi"] },
              { ReplyToken := T2, Messages :=
                  [.TextMessage "sticker id is 1, stickerResourceType is custom"] }]
        ∧ (serveCallback x s req w).1.status = 200) := by
  have hr : (serveCallback x s req w).2.replies = w.replies ++ cb.Events.flatMap replyOf := by
    rw [serveCallback_ok x s req w cb h]
    simp only [handleEvents_replies_of]
  have hone : ∀ e : EventInterface, (handleEvent x bot0 World.empty e).replies = replyOf e := by
    intro e
    rw [handleEvent_replies]
    simp [World.empty]
  refine ⟨?_, ?_, ?_, ?_⟩
  · rw [hr]
    simp only [hone]
  · intro e
    have := handleEvent_replies_length_le x bot0 World.empty e
    simpa [World.empty] using this
  · rw [hr, List.length_append]
    have := flatMap_replyOf_length_le cb.Events
    omega
  · intro hev
    constructor
    · rw [hr, hev]
      simp only [List.flatMap_cons, List.flatMap_nil, replyOf, Sprintf_sticker]
      rfl
    · rw [serveCallback_ok x s req w cb h]
      rfl

/-! ## The log of the callback handler -/

theorem call_then_log_log (bot : MessagingApiAPI) (w : World) (req : ReplyMessageRequest)
    (s : String) :
    ∃ added, (match bot.call w req with
      | (some err, w) => log.Print w err.Error
      | (none, w) => log.Println w s).log = w.log ++ added := by
  unfold MessagingApiAPI.call
  cases bot.ReplyMessage w.replies req with
  | none => exact ⟨_, rfl⟩
  | some err => exact ⟨_, rfl⟩

theorem handleEvent_log (x : Externals) (bot : MessagingApiAPI) (w : World)
    (event : EventInterface) :
    ∃ added, (handleEvent x bot w event).log = w.log ++ added := by
  rcases event with ⟨T, m⟩ | k
  · rcases m with B | ⟨I, S⟩ | ⟨I, P⟩ | _ | k
    · simp only [handleEvent]
      obtain ⟨a, ha⟩ := call_then_log_log bot
        (log.Printf w "/callback called%+v...\n"
          [x.fmtPlusV (.MessageEvent T (.TextMessageContent B))])
        { ReplyToken := T, Messages := [.TextMessage B] } "Sent text reply."
      rw [ha]
      exact ⟨_, List.append_assoc w.log [_] a⟩
    · simp only [handleEvent]
      obtain ⟨a, ha⟩ := call_then_log_log bot
        (log.Printf w "/callback called%+v...\n"
          [x.fmtPlusV (.MessageEvent T (.StickerMessageContent I S))])
        { ReplyToken := T, Messages := [.TextMessage
            (fmt.Sprintf "sticker id is %s, stickerResourceType is %s" [I, S])] }
        "Sent sticker reply."
      rw [ha]
      exact ⟨_, List.append_assoc w.log [_] a⟩
    · simp only [handleEvent]
      obtain ⟨a, ha⟩ := call_then_log_log bot
        (log.Printf w "/callback called%+v...\n"
          [x.fmtPlusV (.MessageEvent T (.ImageMessageContent I P))])
        { ReplyToken := T, Messages := [.TextMessage
            (fmt.Sprintf "image id is %s, imageOriginalContentUrl is %s"
              [I, P.OriginalContentUrl])] }
        "Sent image reply."
      rw [ha]
      exact ⟨_, List.append_assoc w.log [_] a⟩
    · exact ⟨_, by rw [handleEvent_video]⟩
    · exact ⟨_, by rw [handleEvent_otherContent]⟩
  · exact ⟨_, by rw [handleEvent_otherEvent]⟩

theorem handleEvents_log (x : Externals) (bot : MessagingApiAPI) (w : World)
    (events : List EventInterface) :
    ∃ added, (handleEvents x bot w events).log = w.log ++ added := by
  induction events generalizing w with
  | nil => exact ⟨[], by simp [handleEvents]⟩
  | cons e rest ih =>
    obtain ⟨a, ha⟩ := handleEvent_log x bot w e
    obtain ⟨b, hb⟩ := ih (handleEvent x bot w e)
    exact ⟨a ++ b, by rw [handleEvents_cons, hb, ha, List.append_assoc]⟩

theorem serveCallback_log (x : Externals) (s : Server) (req : Request) (w : World) :
    ∃ rest, (serveCallback x s req w).2.log = w.log ++ openingLines s req ++ rest := by
  cases h : x.ParseRequest s.lineSecret req with
  | error err =>
    rw [serveCallback_error x s req w err h]
    exact ⟨_, rfl⟩
  | ok cb =>
    rw [serveCallback_ok x s req w cb h]
    obtain ⟨a, ha⟩ := handleEvents_log x s.bot { w with log := w.log ++ openingLines s req }
      cb.Events
    exact ⟨a, ha⟩

theorem line_injective (p a b : String) (h : p ++ a ++ "\n" = p ++ b ++ "\n") : a = b := by
  have h2 := congrArg String.data h
  simp only [String.data_append, List.append_assoc] at h2
  have h3 := List.append_cancel_right (List.append_cancel_left h2)
  exact String.ext h3

theorem openingLines_injective (s s' : Server) (req req' : Request)
    (h : openingLines s req = openingLines s' req') :
    s.lineSecret = s'.lineSecret ∧ s.lineAccessToken = s'.lineAccessToken := by
  simp only [openingLines, List.cons.injEq] at h
  exact ⟨line_injective _ _ _ h.1, line_injective _ _ _ h.2.1⟩

/-- C10. Every callback request, whether its parse succeeds or fails, makes the
handler write the signing secret, the access token and the received
`X-Line-Signature` value to the log in clear, as the first three lines of the
request, before the response is decided. Hence the log depends on the secrets:
two runs that differ in the signing secret or in the access token write
different logs. -/
theorem secrets_logged_in_clear (x : Externals) (s s' : Server) (req : Request) (w : World) :
    (∃ rest, (serveCallback x s req w).2.log
        = w.log ++ ["secret : " ++ s.lineSecret ++ "\n",
                    "access token : " ++ s.lineAccessToken ++ "\n",
                    "sign : " ++ req.Header.Get "X-Line-Signature" ++ "\n"] ++ rest)
    ∧ (s.lineSecret ≠ s'.lineSecret ∨ s.lineAccessToken ≠ s'.lineAccessToken →
        (serveCallback x s req w).2.log ≠ (serveCallback x s' req w).2.log) := by
  constructor
  · exact serveCallback_log x s req w
  · intro hne heq
    obtain ⟨a, ha⟩ := serveCallback_log x s req w
    obtain ⟨b, hb⟩ := serveCallback_log x s' req w
    rw [ha, hb, List.append_assoc, List.append_assoc] at heq
    have h1 := List.append_cancel_left heq
    have h2 := (List.append_inj h1 (by simp [openingLines])).1
    have h3 := openingLines_injective s s' req req h2
    rcases hne with hne | hne
    · exact hne h3.1
    · exact hne h3.2

/-! ## Startup -/

theorem carriesValue_cases (r : Except error GetParameterOutput)
    (h : carriesValue r = true) :
    (∃ err, r = .error err) ∨ (∃ value, r = .ok { Parameter := some { Value := some value } }) := by
  rcases r with err | ⟨_ | ⟨_ | value⟩⟩
  · exact Or.inl ⟨err, rfl⟩
  · simp [carriesValue] at h
  · simp [carriesValue] at h
  · exact Or.inr ⟨value, rfl⟩

theorem GetValue_params (api : SSMAPI) (name : String) (dec : Bool) (w : World) :
    ((SSM.Param (some { client := api }) name dec).GetValue w).2
      = { w with params := w.params ++ [{ Name := name, WithDecryption := dec }] } := by
  simp only [Param.GetValue, SSM.Param, SSMAPI.call]
  rcases api.GetParameter w.params { Name := name, WithDecryption := dec }
    with err | ⟨_ | ⟨_ | value⟩⟩ <;> rfl

theorem GetValue_error (api : SSMAPI) (name : String) (dec : Bool) (w : World) (err : error)
    (h : api.GetParameter w.params { Name := name, WithDecryption := dec } = .error err) :
    (SSM.Param (some { client := api }) name dec).GetValue w
      = (.done ("", some err),
         { w with params := w.params ++ [{ Name := name, WithDecryption := dec }] }) := by
  simp only [Param.GetValue, SSM.Param, SSMAPI.call, h]

theorem GetValue_value (api : SSMAPI) (name : String) (dec : Bool) (w : World) (value : String)
    (h : api.GetParameter w.params { Name := name, WithDecryption := dec }
      = .ok { Parameter := some { Value := some value } }) :
    (SSM.Param (some { client := api }) name dec).GetValue w
      = (.done (value, none),
         { w with params := w.params ++ [{ Name := name, WithDecryption := dec }] }) := by
  simp only [Param.GetValue, SSM.Param, SSMAPI.call, h]

theorem init_no_session (x : Externals) (w : World) (err : error)
    (hs : x.NewSession = .error err) : init x w = (.panic err.Error, w) := by
  simp [init, NewSSMClient, Sessions, session.Must, hs]

theorem init_eq (x : Externals) (sess : Session) (w : World)
    (hs : x.NewSession = .ok sess) (r1 r2 : Except error GetParameterOutput)
    (h1 : sess.service.GetParameter w.params
      { Name := "HEALTHYBOT_CHANNEL_SECRET", WithDecryption := true } = r1)
    (h2 : sess.service.GetParameter
      (w.params ++ [{ Name := "HEALTHYBOT_CHANNEL_SECRET", WithDecryption := true }])
      { Name := "HEALTHYBOT_CHANNEL_ACCESS_TOKEN", WithDecryption := true } = r2)
    (c1 : carriesValue r1 = true) (c2 : carriesValue r2 = true) :
    init x w
      = (match x.NewMessagingApiAPI (keptSecret r2) with
          | .ok bot => .done
              { lineSecret := keptSecret r1, lineAccessToken := keptSecret r2, bot := bot }
          | .error _ => .exit 1,
         { log := w.log ++ failureLines r1 ++ failureLines r2
              ++ [match x.NewMessagingApiAPI (keptSecret r2) with
                  | .ok _ => "Gin cold start\n"
                  | .error err => logOutput err.Error]
           replies := w.replies
           params := w.params
              ++ [{ Name := "HEALTHYBOT_CHANNEL_SECRET", WithDecryption := true },
                  { Name := "HEALTHYBOT_CHANNEL_ACCESS_TOKEN", WithDecryption := true }] }) := by
  have hnew : NewSSMClient x.NewSession w = (.done (some { client := sess.service }), w) := by
    simp [NewSSMClient, Sessions, session.Must, hs, ssm.New]
  have hcold : logOutput (fmt.Sprintf "Gin cold start" []) = "Gin cold start\n" := by decide
  rcases carriesValue_cases r1 c1 with ⟨e1, rfl⟩ | ⟨v1, rfl⟩ <;>
    rcases carriesValue_cases r2 c2 with ⟨e2, rfl⟩ | ⟨v2, rfl⟩
  all_goals
    simp only [init, hnew, Param.GetValue, SSM.Param, SSMAPI.call, h1, h2, log.Println,
      logOutput_newline, keptSecret, failureLines]
    cases x.NewMessagingApiAPI _ <;> simp [log.Print, log.Printf, hcold]

/-- C9 (amended). Startup secret resolution. When the session cannot be created,
`init` panics before any request to the parameter store. When it is created and
the store answers each request with an error or with a parameter that has a
value: `init` asks the store exactly twice, once for each of the two fixed names,
in this order and with decryption enabled; a failed request is logged and the
empty string is kept as that secret; then the messaging client is constructed
from the access token kept, and `init` completes if the construction succeeds and
leaves through `log.Fatal` (exit code 1) if it fails. So a failed request for the
signing secret lets startup complete with the empty secret, while a failed
request for the access token ends startup whenever the constructor refuses the
empty token. `Param.GetValue` makes one request; it returns the value with no
error when the store answers with a value, and the empty string with the error
when the store answers with an error. -/
theorem startup_secret_resolution (x : Externals) (w : World) :
    (∀ err, x.NewSession = .error err → init x w = (.panic err.Error, w))
    ∧ (∀ sess, x.NewSession = .ok sess →
        carriesValue (sess.service.GetParameter w.params
          { Name := "HEALTHYBOT_CHANNEL_SECRET", WithDecryption := true }) = true →
        carriesValue (sess.service.GetParameter
          (w.params ++ [{ Name := "HEALTHYBOT_CHANNEL_SECRET", WithDecryption := true }])
          { Name := "HEALTHYBOT_CHANNEL_ACCESS_TOKEN", WithDecryption := true }) = true →
        (init x w).2.params
            = w.params ++ [{ Name := "HEALTHYBOT_CHANNEL_SECRET", WithDecryption := true },
                           { Name := "HEALTHYBOT_CHANNEL_ACCESS_TOKEN", WithDecryption := true }]
        ∧ (init x w).1
            = (match x.NewMessagingApiAPI
                  (keptSecret (sess.service.GetParameter
                    (w.params ++ [{ Name := "HEALTHYBOT_CHANNEL_SECRET", WithDecryption := true }])
                    { Name := "HEALTHYBOT_CHANNEL_ACCESS_TOKEN", WithDecryption := true })) with
                | .ok bot => .done
                    { lineSecret := keptSecret (sess.service.GetParameter w.params
                        { Name := "HEALTHYBOT_CHANNEL_SECRET", WithDecryption := true })
                      lineAccessToken := keptSecret (sess.service.GetParameter
                        (w.params
                          ++ [{ Name := "HEALTHYBOT_CHANNEL_SECRET", WithDecryption := true }])
                        { Name := "HEALTHYBOT_CHANNEL_ACCESS_TOKEN", WithDecryption := true })
                      bot := bot }
                | .error _ => .exit 1)
        ∧ (∀ err, sess.service.GetParameter w.params
              { Name := "HEALTHYBOT_CHANNEL_SECRET", WithDecryption := true } = .error err →
            err.Error ++ "\n" ∈ (init x w).2.log
            ∧ (∀ value bot, sess.service.GetParameter
                  (w.params ++ [{ Name := "HEALTHYBOT_CHANNEL_SECRET", WithDecryption := true }])
                  { Name := "HEALTHYBOT_CHANNEL_ACCESS_TOKEN", WithDecryption := true }
                  = .ok { Parameter := some { Value := some value } } →
                x.NewMessagingApiAPI value = .ok bot →
                (init x w).1
                  = .done { lineSecret := "", lineAccessToken := value, bot := bot }))
        ∧ (∀ err, sess.service.GetParameter
              (w.params ++ [{ Name := "HEALTHYBOT_CHANNEL_SECRET", WithDecryption := true }])
              { Name := "HEALTHYBOT_CHANNEL_ACCESS_TOKEN", WithDecryption := true } = .error err →
            err.Error ++ "\n" ∈ (init x w).2.log
            ∧ (∀ refusal, x.NewMessagingApiAPI "" = .error refusal →
                (init x w).1 = .exit 1 ∧ logOutput refusal.Error ∈ (init x w).2.log)
            ∧ (∀ bot, x.NewMessagingApiAPI "" = .ok bot →
                ∃ lineSecret, (init x w).1
                  = .done { lineSecret := lineSecret, lineAccessToken := "", bot := bot })))
    ∧ (∀ (api : SSMAPI) (name : String) (dec : Bool) (w0 : World),
        ((SSM.Param (some { client := api }) name dec).GetValue w0).2.params
            = w0.params ++ [{ Name := name, WithDecryption := dec }]
        ∧ (∀ value, api.GetParameter w0.params { Name := name, WithDecryption := dec }
              = .ok { Parameter := some { Value := some value } } →
            ((SSM.Param (some { client := api }) name dec).GetValue w0).1
              = .done (value, none))
        ∧ (∀ err, api.GetParameter w0.params { Name := name, WithDecryption := dec } = .error err →
            ((SSM.Param (some { client := api }) name dec).GetValue w0).1
              = .done ("", some err))) := by
  refine ⟨fun err hs => init_no_session x w err hs, ?_, ?_⟩
  · intro sess hs c1 c2
    have e := init_eq x sess w hs _ _ rfl rfl c1 c2
    refine ⟨?_, ?_, ?_, ?_⟩
    · rw [e]
    · rw [e]
    · intro err h
      refine ⟨?_, ?_⟩
      · rw [e, h]
        simp [failureLines]
      · intro value bot hv hb
        rw [e, h, hv]
        simp [keptSecret, hb]
    · intro err h
      refine ⟨?_, ?_, ?_⟩
      · rw [e, h]
        simp [failureLines]
      · intro refusal hr
        rw [e, h]
        simp [keptSecret, hr]
      · intro bot hb
        rw [e, h]
        simp [keptSecret, hb]
  · intro api name dec w0
    refine ⟨?_, ?_, ?_⟩
    · rw [GetValue_params]
    · intro value h
      rw [GetValue_value api name dec w0 value h]
    · intro err h
      rw [GetValue_error api name dec w0 err h]

/-! ## The statements at sample inputs -/

theorem unsupported_kinds_logged_witness :
    (sampleExternals (.ok sampleUnsupportedBatch)).ParseRequest sampleServer.lineSecret
        sampleRequest = .ok sampleUnsupportedBatch
    ∧ (serveCallback (sampleExternals (.ok sampleUnsupportedBatch)) sampleServer sampleRequest
        World.empty).1 = Context.fresh sampleRequest
    ∧ (serveCallback (sampleExternals (.ok sampleUnsupportedBatch)) sampleServer sampleRequest
        World.empty).1.status = 200
    ∧ (serveCallback (sampleExternals (.ok sampleUnsupportedBatch)) sampleServer sampleRequest
        World.empty).2.replies = []
    ∧ (handleEvent (sampleExternals (.ok sampleUnsupportedBatch)) failingBot World.empty
        (.otherEvent "webhook.FollowEvent")).log
        = ["/callback calledwebhook.FollowEvent...\n",
           "Unsupported message: webhook.FollowEvent\n"] :=
  have h := unsupported_kinds_logged (sampleExternals (.ok sampleUnsupportedBatch)) failingBot
    World.empty "T3" "webhook.FollowEvent" [] [] sampleServer sampleRequest
    sampleUnsupportedBatch
  ⟨rfl, (h.2.2.2.2 rfl).1, (h.2.2.2.2 rfl).2, by decide, by rw [h.1]; decide⟩

theorem reply_failures_swallowed_witness :
    (sampleExternals (.ok sampleBatch)).ParseRequest sampleServer.lineSecret sampleRequest
        = .ok sampleBatch
    ∧ (serveCallback (sampleExternals (.ok sampleBatch)) sampleServer sampleRequest
        World.empty).2.replies
        = (serveCallback (sampleExternals (.ok sampleBatch))
            { sampleServer with bot := succeedingBot } sampleRequest World.empty).2.replies
    ∧ (serveCallback (sampleExternals (.ok sampleBatch)) sampleServer sampleRequest
        World.empty).1.status = 200
    ∧ (serveCallback (sampleExternals (.ok sampleBatch)) sampleServer sampleRequest
        World.empty).2.log
        = ["secret : s3cr3t\n", "access token : t0k3n\n", "sign : c2lnbg==\n",
           "/callback calledwebhook.MessageEvent...\n", "reply failed\n",
           "/callback calledwebhook.MessageEvent...\n", "reply failed\n"]
    ∧ (serveCallback (sampleExternals (.ok sampleBatch)) sampleServer sampleRequest
        World.empty).2.replies
        = [{ ReplyToken := "T1", Messages := [.TextMessage "hi"] },
           { ReplyToken := "T2", Messages :=
              [.TextMessage "sticker id is 1, stickerResourceType is custom"] }]
    ∧ sampleServer.bot.ReplyMessage World.empty.replies
        { ReplyToken := "T1", Messages := [.TextMessage "hi"] }
        = some (.errorString "reply failed")
    ∧ (handleEvents (sampleExternals (.ok sampleBatch)) sampleServer.bot World.empty
        [.MessageEvent "T1" (.TextMessageContent "hi"),
         .MessageEvent "T2" (.TextMessageContent "ho")]).replies
        = [{ ReplyToken := "T1", Messages := [.TextMessage "hi"] },
           { ReplyToken := "T2", Messages := [.TextMessage "ho"] }] :=
  have h := reply_failures_swallowed (sampleExternals (.ok sampleBatch)) sampleServer
    sampleRequest World.empty sampleBatch rfl
  ⟨rfl, h.1, h.2.1, by decide, by rw [h.2.2.2.1]; decide, rfl,
   h.2.2.2.2.2 World.empty "T1" "hi" "T2" "ho" (.errorString "reply failed") rfl⟩

theorem replies_in_event_order_witness :
    (sampleExternals (.ok sampleBatch)).ParseRequest sampleServer.lineSecret sampleRequest
        = .ok sampleBatch
    ∧ (serveCallback (sampleExternals (.ok sampleBatch)) sampleServer sampleRequest
        World.empty).2.replies
        = [{ ReplyToken := "T1", Messages := [.TextMessage "hi"] },
           { ReplyToken := "T2", Messages :=
              [.TextMessage "sticker id is 1, stickerResourceType is custom"] }]
    ∧ (serveCallback (sampleExternals (.ok sampleBatch)) sampleServer sampleRequest
        World.empty).1.status = 200 :=
  have h := (replies_in_event_order (sampleExternals (.ok sampleBatch)) sampleServer
    sampleRequest World.empty sampleBatch succeedingBot "T1" "T2" rfl).2.2.2 rfl
  ⟨rfl, h.1, h.2⟩

theorem secrets_logged_in_clear_witness :
    (sampleServer.lineSecret ≠ ({ sampleServer with lineSecret := "0ther" } : Server).lineSecret
      ∨ sampleServer.lineAccessToken
          ≠ ({ sampleServer with lineSecret := "0ther" } : Server).lineAccessToken)
    ∧ (serveCallback (sampleExternals (.error .ErrInvalidSignature)) sampleServer sampleRequest
        World.empty).2.log
      ≠ (serveCallback (sampleExternals (.error .ErrInvalidSignature))
          { sampleServer with lineSecret := "0ther" } sampleRequest World.empty).2.log
    ∧ (serveCallback (sampleExternals (.error .ErrInvalidSignature)) sampleServer sampleRequest
        World.empty).2.log
      = ["secret : s3cr3t\n", "access token : t0k3n\n", "sign : c2lnbg==\n",
         "invalid signature\n"] :=
  ⟨Or.inl (by decide),
   (secrets_logged_in_clear (sampleExternals (.error .ErrInvalidSignature)) sampleServer
      { sampleServer with lineSecret := "0ther" } sampleRequest World.empty).2
      (Or.inl (by decide)),
   by decide⟩

theorem startup_secret_resolution_witness :
    (sampleStartup (.ok { service := sampleStoreNoSecret })).NewSession
        = .ok { service := sampleStoreNoSecret }
    ∧ sampleStoreNoSecret.GetParameter World.empty.params
        { Name := "HEALTHYBOT_CHANNEL_SECRET", WithDecryption := true }
        = .error (.errorString "ParameterNotFound")
    ∧ (init (sampleStartup (.ok { service := sampleStoreNoSecret })) World.empty).2.params
        = [{ Name := "HEALTHYBOT_CHANNEL_SECRET", WithDecryption := true },
           { Name := "HEALTHYBOT_CHANNEL_ACCESS_TOKEN", WithDecryption := true }]
    ∧ "ParameterNotFound\n"
        ∈ (init (sampleStartup (.ok { service := sampleStoreNoSecret })) World.empty).2.log
    ∧ (init (sampleStartup (.ok { service := sampleStoreNoSecret })) World.empty).1
        = .done { lineSecret := "", lineAccessToken := "t0k3n", bot := succeedingBot }
    ∧ (init (sampleStartup (.ok { service := sampleStoreNoSecret })) World.empty).2.log
        = ["ParameterNotFound\n", "Gin cold start\n"] :=
  have h := (startup_secret_resolution
    (sampleStartup (.ok { service := sampleStoreNoSecret })) World.empty).2.1
    { service := sampleStoreNoSecret } rfl (by decide) (by decide)
  ⟨rfl, rfl, h.1,
   (h.2.2.1 (.errorString "ParameterNotFound") rfl).1,
   (h.2.2.1 (.errorString "ParameterNotFound") rfl).2 "t0k3n" succeedingBot rfl rfl,
   by decide⟩

theorem startup_secret_resolution_counterexample :
    (init (sampleStartup (.error (.errorString "NoCredentialProviders"))) World.empty).1
        = .panic "NoCredentialProviders"
    ∧ (init (sampleStartup (.error (.errorString "NoCredentialProviders"))) World.empty).2.params
        = []
    ∧ sampleStore.GetParameter
        [{ Name := "HEALTHYBOT_CHANNEL_SECRET", WithDecryption := true }]
        { Name := "HEALTHYBOT_CHANNEL_ACCESS_TOKEN", WithDecryption := true }
        = .error (.errorString "ParameterNotFound")
    ∧ (init (sampleStartup (.ok { service := sampleStore })) World.empty).1 = .exit 1
    ∧ (init (sampleStartup (.ok { service := sampleStore })) World.empty).2.log
        = ["ParameterNotFound\n", "missing channel access token\n"] :=
  ⟨rfl, by decide, rfl, rfl, by decide⟩

end HealthyBot
